import Mathlib

/-
Verification of the icon, menu-item and snackbar components of the rmwc
repository. The TypeScript sources are shallowly embedded: React nodes become
an inductive type, JavaScript truthiness and the `||` operator are modelled
explicitly, optional props become `Option`, and record spreads become
field-wise merges where a later field, when present, overrides an earlier one.
-/

set_option autoImplicit false

namespace RMWC

/-- JavaScript `a || b` on option values whose only falsy inhabitant is the
missing value (`null`/`undefined`): returns `a` when present, otherwise `b`. -/
def jsOr {α : Type} (a b : Option α) : Option α :=
  match a with
  | some x => some x
  | none => b

theorem jsOr_none_right {α : Type} (a : Option α) : jsOr a none = a := by
  cases a <;> rfl

theorem jsOr_some_left {α : Type} (x : α) (b : Option α) :
    jsOr (some x) b = some x := rfl

/-! ## Icon data model (src/icon/index.tsx) -/

/-- The `IconStrategyT` union type of src/icon/index.tsx. -/
inductive IconStrategyT
  | auto
  | ligature
  | className
  | url
  | component
  | custom
deriving DecidableEq, Repr

/-- The string name of a strategy tag, as it would be interpolated into the
diagnostic message by the component. -/
def strategyName : IconStrategyT → String
  | .auto => "auto"
  | .ligature => "ligature"
  | .className => "className"
  | .url => "url"
  | .component => "component"
  | .custom => "custom"

/-- A `React.ReactNode` as far as the icon code inspects it: a string, a valid
React element, or a nullish node (null/undefined). `React.isValidElement` is
true exactly on `element`. -/
inductive ReactNode
  | str (s : String)
  | element
  | nullNode
deriving DecidableEq, Repr

/-- JavaScript `s.startsWith(p)`: `p` is a prefix of `s`, computed on the
character sequences. -/
def strStartsWith (s p : String) : Bool :=
  p.data.isPrefixOf s.data

/-- `processAutoStrategy` of src/icon/index.tsx: URL-looking strings map to
the url strategy, valid elements to component, everything else to ligature. -/
def processAutoStrategy : ReactNode → IconStrategyT
  | .str s =>
      if strStartsWith s "/" || strStartsWith s "http://" || strStartsWith s "https://" then
        .url
      else
        .ligature
  | .element => .component
  | .nullNode => .ligature

/-- `getIconStrategy` of src/icon/index.tsx:
`strategy = strategy || providerStrategy || 'auto'`, then an `'auto'` result
is resolved through `processAutoStrategy`. Strategy tags are non-empty strings,
so the only falsy value of the two arguments is `null`, modelled as `none`. -/
def getIconStrategy (content : ReactNode)
    (strategy providerStrategy : Option IconStrategyT) : IconStrategyT :=
  let s := (jsOr strategy providerStrategy).getD .auto
  if s = .auto then processAutoStrategy content else s

/-! ## Claims C1 and C4: strategy resolution -/

/-- Claim C1, counterexample: the claim says that when the explicit strategy is
unset or the literal auto while an inherited strategy is set, the inherited
strategy is used. But an explicit literal auto is a truthy string, so it masks
the inherited strategy and resolution falls through to automatic inference:
with content "home", explicit auto and inherited url, the result is ligature,
not the inherited url. -/
theorem C1_counterexample :
    getIconStrategy (.str "home") (some .auto) (some .url) = .ligature ∧
    IconStrategyT.ligature ≠ .url := by
  constructor
  · rfl
  · decide

/-- Claim C1 (amended): an explicit strategy that is set and not auto is
returned unchanged; when the explicit strategy is unset (null) and an
inherited strategy is set, the inherited strategy is used, with an inherited
auto itself deferring to automatic inference; and an explicit literal auto
defers to automatic inference regardless of any inherited strategy. -/
theorem C1_amended (content : ReactNode) (e i : Option IconStrategyT) :
    (∀ s, e = some s → s ≠ .auto → getIconStrategy content e i = s) ∧
    (e = none → ∀ s, i = some s →
      getIconStrategy content e i =
        (if s = .auto then processAutoStrategy content else s)) ∧
    (e = some .auto → getIconStrategy content e i = processAutoStrategy content) := by
  refine ⟨?_, ?_, ?_⟩
  · intro s he hs
    subst he
    simp [getIconStrategy, jsOr, hs]
  · intro he s hi
    subst he
    subst hi
    by_cases h : s = IconStrategyT.auto <;> simp [getIconStrategy, jsOr, h]
  · intro he
    subst he
    simp [getIconStrategy, jsOr]

/-- Claim C1 (amended) at concrete input: explicit url with inherited ligature
resolves to url. -/
theorem C1_amended_witness :
    getIconStrategy (.str "home") (some .url) (some .ligature) = .url :=
  (C1_amended (.str "home") (some .url) (some .ligature)).1 .url rfl (by decide)

/-- Claim C4: with neither an explicit nor an inherited strategy, automatic
inference resolves strings beginning with /, http:// or https:// to url,
valid React elements to component, and all other content (non-URL strings and
nullish nodes) to ligature. -/
theorem C4_auto_inference (content : ReactNode) :
    (∀ s, content = .str s →
      (strStartsWith s "/" || strStartsWith s "http://" || strStartsWith s "https://") = true →
      getIconStrategy content none none = .url) ∧
    (content = .element → getIconStrategy content none none = .component) ∧
    (∀ s, content = .str s →
      (strStartsWith s "/" || strStartsWith s "http://" || strStartsWith s "https://") = false →
      getIconStrategy content none none = .ligature) ∧
    (content = .nullNode → getIconStrategy content none none = .ligature) := by
  refine ⟨?_, ?_, ?_, ?_⟩
  · intro s hc hu
    subst hc
    simp [getIconStrategy, jsOr, processAutoStrategy, hu]
  · intro hc
    subst hc
    rfl
  · intro s hc hu
    subst hc
    simp [getIconStrategy, jsOr, processAutoStrategy, hu]
  · intro hc
    subst hc
    rfl

/-- Claim C4 at concrete inputs: a protocol-relative path infers url, an
element infers component, and the plain string "home" infers ligature. -/
theorem C4_auto_inference_witness :
    getIconStrategy (.str "/img/x.png") none none = .url ∧
    getIconStrategy .element none none = .component ∧
    getIconStrategy (.str "home") none none = .ligature :=
  ⟨(C4_auto_inference (.str "/img/x.png")).1 "/img/x.png" rfl (by decide),
   (C4_auto_inference .element).2.1 rfl,
   (C4_auto_inference (.str "home")).2.2.1 "home" rfl (by decide)⟩

/-! ## Icon render pipeline (src/icon/index.tsx, Icon component body) -/

/-- JavaScript truthiness of an optional string: missing (`null`/`undefined`)
and the empty string are falsy. -/
def truthyStr : Option String → Bool
  | some s => s ≠ ""
  | none => false

/-- JavaScript `String(x)` applied to an optional string: `String(null)` is
the four-character string "null". -/
def jsStringOfOpt : Option String → String
  | some s => s
  | none => "null"

/-- `prefixToUse = prefix || providerPrefix` in the Icon component: the
caller prefix when truthy (set and non-empty), otherwise the provider
prefix. -/
def prefixToUse (p providerP : Option String) : Option String :=
  if truthyStr p then p else providerP

/-- `basenameToUse = basename === undefined ? providerBasename : basename`
in the Icon component: a strict undefined check, so an explicit empty string
is kept. -/
def basenameToUse (basename providerBasename : Option String) : Option String :=
  match basename with
  | none => providerBasename
  | some b => some b

/-- `iconClassName` in the Icon component: when the resolved strategy is
className and the content is a string, `String(prefixToUse) + content`;
otherwise null. -/
def iconClassName (strategyToUse : IconStrategyT) (content : ReactNode)
    (p providerP : Option String) : Option String :=
  if strategyToUse = .className then
    match content with
    | .str s => some (jsStringOfOpt (prefixToUse p providerP) ++ s)
    | _ => none
  else none

/-- One argument of the `classNames` call: a truthy string contributes itself,
anything falsy contributes nothing. -/
def pushClass : Option String → List String
  | some s => if s = "" then [] else [s]
  | none => []

/-- The composed class list of the rendered icon:
`classNames('rmwc-icon', basenameToUse, rest.className, optionsRest.className,
iconClassName, {[rmwc-icon--size-(size or empty)]: !!size})`. -/
def iconComposedClasses (basenameU callerClass optionsClass iconCN size : Option String) :
    List String :=
  ["rmwc-icon"] ++ pushClass basenameU ++ pushClass callerClass ++
    pushClass optionsClass ++ pushClass iconCN ++
    (if truthyStr size then ["rmwc-icon--size-" ++ size.getD ""] else [])

/-- A render function as the Icon component distinguishes them: one of the
four built-in renderers of the dispatch map, or a caller/provider-supplied
custom render function (identified abstractly). -/
inductive RenderFn
  | ligatureFn
  | classNameFn
  | urlFn
  | componentFn
  | customFn (id : Nat)
deriving DecidableEq, Repr

/-- The `iconRenderMap` lookup of src/icon/index.tsx: ligature, className,
url and component map to their renderers, the auto key is explicitly
undefined, and custom has no entry. -/
def iconRenderMap : IconStrategyT → Option RenderFn
  | .ligature => some .ligatureFn
  | .className => some .classNameFn
  | .url => some .urlFn
  | .component => some .componentFn
  | .auto => none
  | .custom => none

/-- `renderToUse` in the Icon component: for the custom strategy,
`render || providerRender`; otherwise the dispatch-map entry when it is
defined (strategy tags are truthy strings), else undefined. -/
def renderToUse (strategyToUse : IconStrategyT) (render providerRender : Option RenderFn) :
    Option RenderFn :=
  if strategyToUse = .custom then jsOr render providerRender
  else
    match iconRenderMap strategyToUse with
    | some f => some f
    | none => none

/-- The outcome of the Icon component body after the render function is
chosen: either a logged error with a null render result, or a render through
the chosen function. -/
inductive IconRenderOutcome
  | nullWithError (msg : String)
  | rendered (fn : RenderFn)
deriving DecidableEq, Repr

/-- The Icon component body around the `if (!renderToUse)` guard: a missing
render function logs `Icon: rendering not implemented for (strategy).` on
console.error and returns null; otherwise the chosen function renders. -/
def iconRenderOutcome (strategyToUse : IconStrategyT)
    (render providerRender : Option RenderFn) : IconRenderOutcome :=
  match renderToUse strategyToUse render providerRender with
  | none =>
      .nullWithError ("Icon: rendering not implemented for " ++
        strategyName strategyToUse ++ ".")
  | some f => .rendered f

/-! ## Claims C5, C6 and C10: class composition, render dispatch, defaults -/

/-- Claim C5: when the resolved strategy is className and the content is a
string, the strategy-derived class name is exactly the effective prefix (the
caller prefix when truthy, otherwise the provider prefix) concatenated with
the content string, and when that class name is non-empty it appears in the
composed class list of the rendered icon. -/
theorem C5_className_class (stc ps : Option IconStrategyT) (s : String)
    (p providerP bnU callerClass optionsClass size : Option String) (pfx : String)
    (hstrat : getIconStrategy (.str s) stc ps = .className)
    (hp : prefixToUse p providerP = some pfx) :
    iconClassName (getIconStrategy (.str s) stc ps) (.str s) p providerP =
      some (pfx ++ s) ∧
    (pfx ++ s ≠ "" →
      (pfx ++ s) ∈ iconComposedClasses bnU callerClass optionsClass
        (iconClassName (getIconStrategy (.str s) stc ps) (.str s) p providerP) size) := by
  rw [hstrat]
  constructor
  · simp [iconClassName, hp, jsStringOfOpt]
  · intro hne
    simp [iconClassName, hp, jsStringOfOpt, iconComposedClasses, pushClass, hne]

/-- Claim C5 at concrete input: caller prefix "fa-" with content "home" under
an explicit className strategy yields class "fa-home". -/
theorem C5_className_class_witness :
    iconClassName (getIconStrategy (.str "home") (some .className) none)
      (.str "home") (some "fa-") none = some "fa-home" :=
  (C5_className_class (some .className) none "home" (some "fa-") none
    none none none none "fa-" rfl rfl).1

/-- Claim C6: when the resolved strategy is custom and neither the caller nor
the provider supplies a render function, or the resolved strategy has no entry
in the render dispatch map, the Icon body logs the
"rendering not implemented" error and returns a null render result. -/
theorem C6_missing_render (st : IconStrategyT) (r pr : Option RenderFn)
    (h : (st = .custom ∧ r = none ∧ pr = none) ∨
         (st ≠ .custom ∧ iconRenderMap st = none)) :
    iconRenderOutcome st r pr =
      .nullWithError ("Icon: rendering not implemented for " ++ strategyName st ++ ".") := by
  rcases h with ⟨hst, hr, hpr⟩ | ⟨hst, hmap⟩
  · subst hst
    subst hr
    subst hpr
    rfl
  · simp [iconRenderOutcome, renderToUse, hst, hmap]

/-- Claim C6 at concrete input: the custom strategy with no caller and no
provider render function yields the logged error and a null result. -/
theorem C6_missing_render_witness :
    iconRenderOutcome .custom none none =
      .nullWithError "Icon: rendering not implemented for custom." :=
  C6_missing_render .custom none none (Or.inl ⟨rfl, rfl, rfl⟩)

/-- Claim C10: the provider basename is used only when the caller basename is
strictly undefined, so an explicit empty-string basename suppresses it; the
provider prefix is used whenever the caller prefix is falsy, so an explicit
empty-string prefix is replaced by the provider prefix. -/
theorem C10_basename_strict_vs_prefix_falsy (pb pp : Option String) :
    basenameToUse (some "") pb = some "" ∧
    basenameToUse none pb = pb ∧
    (∀ b, basenameToUse (some b) pb = some b) ∧
    prefixToUse (some "") pp = pp ∧
    (∀ p, truthyStr p = false → prefixToUse p pp = pp) ∧
    (∀ p, truthyStr p = true → prefixToUse p pp = p) := by
  refine ⟨rfl, rfl, fun b => rfl, rfl, ?_, ?_⟩
  · intro p hp
    simp [prefixToUse, hp]
  · intro p hp
    simp [prefixToUse, hp]

/-- Claim C10 at concrete inputs: an empty caller basename suppresses the
provider basename, while an empty caller prefix defers to the provider
prefix. -/
theorem C10_basename_strict_vs_prefix_falsy_witness :
    basenameToUse (some "") (some "material-icons") = some "" ∧
    prefixToUse (some "") (some "fa-") = some "fa-" :=
  ⟨(C10_basename_strict_vs_prefix_falsy (some "material-icons") (some "fa-")).1,
   (C10_basename_strict_vs_prefix_falsy (some "material-icons") (some "fa-")).2.2.2.2.1
     (some "") (by decide)⟩

/-! ## Menu Item component (src/unnamed menu-item module) -/

/-- The props supplied to MenuItem: optional role and tabIndex attributes,
the remaining forwarded attributes, and the children. -/
structure MenuItemProps where
  role : Option String
  tabIndex : Option String
  otherProps : List (String × String)
  children : List ReactNode
deriving DecidableEq, Repr

/-- The attribute set of the ListItem rendered by MenuItem. -/
structure ListItemRendered where
  role : String
  tabIndex : String
  otherProps : List (String × String)
  children : List ReactNode
deriving DecidableEq, Repr

/-- The MenuItem component:
`<ListItem role="menuitem" tabIndex="0" {...props}>{props.children}</ListItem>`.
The props spread comes after the two fixed attributes, so in JSX attribute
merging a caller-supplied role or tabIndex overrides the fixed value; the
fixed values apply only when the caller leaves them unset. -/
def MenuItem (props : MenuItemProps) : ListItemRendered where
  role := props.role.getD "menuitem"
  tabIndex := props.tabIndex.getD "0"
  otherProps := props.otherProps
  children := props.children

/-! ## Claim C3: MenuItem fixed role and tab position -/

/-- Claim C3, counterexample: the claim says the list item renders with role
menuitem regardless of supplied props, including a caller-supplied role; but
because the props spread follows the fixed attributes, supplying
role="button" makes the rendered role "button", not "menuitem". -/
theorem C3_counterexample :
    (MenuItem ⟨some "button", some "-1", [], []⟩).role ≠ "menuitem" ∧
    (MenuItem ⟨some "button", some "-1", [], []⟩).tabIndex ≠ "0" := by
  constructor <;> decide

/-- Claim C3 (amended): MenuItem renders the list item with role menuitem and
tabIndex 0 whenever the caller does not supply role or tabIndex; a
caller-supplied role or tabIndex overrides the fixed value; all other
properties and the children are forwarded unchanged. -/
theorem C3_amended (props : MenuItemProps) :
    (props.role = none → (MenuItem props).role = "menuitem") ∧
    (props.tabIndex = none → (MenuItem props).tabIndex = "0") ∧
    (∀ r, props.role = some r → (MenuItem props).role = r) ∧
    (∀ t, props.tabIndex = some t → (MenuItem props).tabIndex = t) ∧
    (MenuItem props).otherProps = props.otherProps ∧
    (MenuItem props).children = props.children := by
  refine ⟨?_, ?_, ?_, ?_, rfl, rfl⟩
  · intro h
    simp [MenuItem, h]
  · intro h
    simp [MenuItem, h]
  · intro r h
    simp [MenuItem, h]
  · intro t h
    simp [MenuItem, h]

/-- Claim C3 (amended) at concrete input: with no caller role or tabIndex the
rendered list item carries role menuitem and tabIndex 0. -/
theorem C3_amended_witness :
    (MenuItem ⟨none, none, [("id", "m1")], [.str "Open"]⟩).role = "menuitem" ∧
    (MenuItem ⟨none, none, [("id", "m1")], [.str "Open"]⟩).tabIndex = "0" :=
  ⟨(C3_amended ⟨none, none, [("id", "m1")], [.str "Open"]⟩).1 rfl,
   (C3_amended ⟨none, none, [("id", "m1")], [.str "Open"]⟩).2.1 rfl⟩

/-! ## Icon options records and the deprecated iconOptions merge -/

/-- The `IconOptions` record of src/icon/index.tsx; a missing field is `none`.
The source field named like the css class pre-string is rendered here as
prefixStr because its source spelling is a reserved word in Lean. -/
structure IconOptions where
  icon : Option ReactNode := none
  strategy : Option IconStrategyT := none
  prefixStr : Option String := none
  basename : Option String := none
  render : Option RenderFn := none
  size : Option String := none
deriving DecidableEq, Repr

/-- JavaScript object spread of two options records, second over first: a
field present in the second record overrides the first. -/
def mergeIconOptions (a b : IconOptions) : IconOptions where
  icon := jsOr b.icon a.icon
  strategy := jsOr b.strategy a.strategy
  prefixStr := jsOr b.prefixStr a.prefixStr
  basename := jsOr b.basename a.basename
  render := jsOr b.render a.render
  size := jsOr b.size a.size

/-- The `IconPropT` union: raw content (a string, element or nullish node) or
an options record. -/
inductive IconPropT
  | content (c : ReactNode)
  | options (o : IconOptions)
deriving DecidableEq, Repr

/-- JavaScript truthiness of a content node: the empty string and nullish
nodes are falsy, elements and non-empty strings are truthy. -/
def contentTruthy : ReactNode → Bool
  | .str s => s ≠ ""
  | .element => true
  | .nullNode => false

/-- `React.isValidElement` on an icon prop. -/
def isValidElementProp : Option IconPropT → Bool
  | some (.content .element) => true
  | _ => false

/-- `buildIconOptions` of src/icon/index.tsx: a valid element, or truthy
non-object content, is wrapped as `{icon}`; an options record is returned as
is; anything else (undefined, null, the falsy empty string) spreads to an
empty record. -/
def buildIconOptions : Option IconPropT → IconOptions
  | some (.options o) => o
  | some (.content c) =>
      if isValidElementProp (some (.content c)) || contentTruthy c then
        { icon := some c }
      else
        {}
  | none => {}

/-- The Icon component's normalized options:
`{...buildIconOptions(icon), ...deprecatedIconOption}`. The deprecated
iconOptions record is spread second, so its present fields override the
fields of the icon options record. -/
def effectiveIconOptions (icon : Option IconPropT)
    (deprecatedIconOption : Option IconOptions) : IconOptions :=
  mergeIconOptions (buildIconOptions icon) (deprecatedIconOption.getD {})

/-! ## Snackbar component (src/unnamed snackbar module) -/

/-- The `dismissIcon` prop: a boolean flag or a named icon string. -/
inductive DismissIconT
  | flag (b : Bool)
  | named (s : String)
deriving DecidableEq, Repr

/-- The Snackbar props together with the deprecated aliases; callbacks and
action nodes are identified abstractly by numbers. Fields whose source
spelling is a reserved word in Lean carry a trailing underscore. -/
structure SnackbarProps where
  open_ : Option Bool := none
  onOpen : Option Nat := none
  onClose : Option Nat := none
  message : Option ReactNode := none
  action : Option (List Nat) := none
  timeout : Option Int := none
  stacked : Option Bool := none
  leading : Option Bool := none
  dismissIcon : Option DismissIconT := none
  dismissesOnAction : Option Bool := none
  show_ : Option Bool := none
  onShow : Option Nat := none
  onHide : Option Nat := none
  alignStart : Option Bool := none
  multiline : Option Bool := none
  actionOnBottom : Option Bool := none
  actionHandler : Option Nat := none
  actionText : Option ReactNode := none
deriving DecidableEq, Repr

/-- Modelled from the spec: the generic deprecation resolver
`handleDeprecations` lives in the base package outside this repository, and
only its call site `Snackbar.getPropsWithDeprecations` is in the sources.
Per the spec, for each deprecated key present in the props with a
non-undefined value: when the mapped replacement is non-empty, the value is
copied onto the replacement key only if that key is not already explicitly
set (explicit current-name values win) and the deprecated key is removed;
when the replacement is empty, the deprecated key is simply removed. Here the
resolver is specialized to the Snackbar map: show to open, onShow to onOpen,
onHide to onClose, alignStart to leading, actionOnBottom to stacked, and
multiline, actionHandler and actionText removed without replacement. -/
def getPropsWithDeprecations (p : SnackbarProps) : SnackbarProps :=
  { p with
    open_ := jsOr p.open_ p.show_
    onOpen := jsOr p.onOpen p.onShow
    onClose := jsOr p.onClose p.onHide
    leading := jsOr p.leading p.alignStart
    stacked := jsOr p.stacked p.actionOnBottom
    show_ := none
    onShow := none
    onHide := none
    alignStart := none
    multiline := none
    actionOnBottom := none
    actionHandler := none
    actionText := none }

/-- JavaScript truthiness of an optional boolean: only `true` is truthy. -/
def truthyOptBool : Option Bool → Bool
  | some b => b
  | none => false

/-- The open branch of `Snackbar.sync`: after normalizing both prop records
through the deprecation resolver, `foundation.open()` is called exactly when
`props.open !== prevProps.open && props.open` holds (strict inequality and
truthiness on the possibly-missing boolean). -/
def syncCallsOpen (props prevProps : SnackbarProps) : Bool :=
  let p := getPropsWithDeprecations props
  let q := getPropsWithDeprecations prevProps
  (decide (p.open_ ≠ q.open_)) && truthyOptBool p.open_

/-- The click target of a surface click, as far as `handleSurfaceClick`
inspects it: whether it is a DOM Element, and its class list. -/
structure ClickTarget where
  isElement : Bool
  classes : List String
deriving DecidableEq, Repr

/-- The foundation entry point invoked by one surface click. -/
inductive FoundationCall
  | actionButtonClick
  | actionIconClick
  | noCall
deriving DecidableEq, Repr

/-- `Snackbar.handleSurfaceClick`: on an Element target, when
dismissesOnAction is truthy and the target carries the action-control class,
the action button entry point fires; otherwise, when the target carries the
dismiss-control class, the dismiss icon entry point fires; any other click is
ignored. -/
def handleSurfaceClick (dismissesOnAction : Bool) (target : ClickTarget) :
    FoundationCall :=
  if target.isElement then
    if dismissesOnAction && target.classes.contains "mdc-snackbar__action" then
      .actionButtonClick
    else if target.classes.contains "mdc-snackbar__dismiss" then
      .actionIconClick
    else
      .noCall
  else
    .noCall

/-! ## Claims C2, C7, C8 and C9: deprecation handling and snackbar events -/

/-- Claim C2, counterexample: the claim says the non-deprecated property
always wins when both are supplied; but in the Icon component the deprecated
iconOptions record is spread after the icon options record, so supplying
strategy ligature inside icon and strategy url inside the deprecated
iconOptions yields the deprecated value url. -/
theorem C2_counterexample :
    (effectiveIconOptions
        (some (.options { icon := some (.str "home"), strategy := some .ligature }))
        (some { strategy := some .url })).strategy = some .url ∧
    (some IconStrategyT.url ≠ some IconStrategyT.ligature) := by
  constructor
  · rfl
  · decide

/-- Claim C2 (amended): in the Snackbar deprecation mapping the current
property's value wins whenever it is set, for every mapped pair; but in the
Icon component's merge of the deprecated iconOptions with the icon options
record, a field supplied in the deprecated record overrides the same field of
the icon options record. -/
theorem C2_amended (p : SnackbarProps) (io dep : IconOptions) :
    (∀ c, p.open_ = some c → (getPropsWithDeprecations p).open_ = some c) ∧
    (∀ c, p.onOpen = some c → (getPropsWithDeprecations p).onOpen = some c) ∧
    (∀ c, p.onClose = some c → (getPropsWithDeprecations p).onClose = some c) ∧
    (∀ c, p.leading = some c → (getPropsWithDeprecations p).leading = some c) ∧
    (∀ c, p.stacked = some c → (getPropsWithDeprecations p).stacked = some c) ∧
    (∀ s, dep.strategy = some s →
      (effectiveIconOptions (some (.options io)) (some dep)).strategy = some s) ∧
    (∀ c, dep.icon = some c →
      (effectiveIconOptions (some (.options io)) (some dep)).icon = some c) := by
  refine ⟨?_, ?_, ?_, ?_, ?_, ?_, ?_⟩ <;> intro c h <;>
    simp [getPropsWithDeprecations, effectiveIconOptions, mergeIconOptions,
      buildIconOptions, jsOr, h]

/-- Claim C2 (amended) at concrete input: with deprecated show true and
current open false supplied together, the normalized open flag is false. -/
theorem C2_amended_witness :
    (getPropsWithDeprecations { open_ := some false, show_ := some true }).open_ =
      some false :=
  (C2_amended { open_ := some false, show_ := some true } {} {}).1 false rfl

/-- The open branch condition of Snackbar.sync on two possibly-missing
boolean flags: strict inequality together with truthiness of the new flag
holds exactly when the previous flag is absent or false and the new flag is
true. -/
theorem syncOpenCond (a b : Option Bool) :
    ((decide (a ≠ b)) && truthyOptBool a) = true ↔
      ((b = none ∨ b = some false) ∧ a = some true) := by
  rcases a with _ | a' <;> rcases b with _ | b' <;>
    (try cases a') <;> (try cases b') <;> decide

/-- Claim C7: during Snackbar prop synchronization, the foundation open entry
point is invoked exactly when the deprecation-normalized open flag changes
from false or absent in the previous props to true in the new props. -/
theorem C7_sync_open (props prevProps : SnackbarProps) :
    syncCallsOpen props prevProps = true ↔
      (((getPropsWithDeprecations prevProps).open_ = none ∨
        (getPropsWithDeprecations prevProps).open_ = some false) ∧
       (getPropsWithDeprecations props).open_ = some true) := by
  simpa [syncCallsOpen] using
    syncOpenCond (getPropsWithDeprecations props).open_
      (getPropsWithDeprecations prevProps).open_

/-- Claim C8, counterexample: the claim says a click whose target carries the
dismiss-control class invokes the dismiss-icon entry point; but on a target
carrying both the action-control and the dismiss-control class with
dismissesOnAction true, the action branch fires first, so the dismiss entry
point is not invoked. -/
theorem C8_counterexample :
    handleSurfaceClick true
        ⟨true, ["mdc-snackbar__action", "mdc-snackbar__dismiss"]⟩ =
      .actionButtonClick ∧
    handleSurfaceClick true
        ⟨true, ["mdc-snackbar__action", "mdc-snackbar__dismiss"]⟩ ≠
      .actionIconClick := by
  constructor
  · rfl
  · decide

/-- Claim C8 (amended): a click on an Element target carrying the
action-control class with dismissesOnAction true invokes exactly the action
entry point; with dismissesOnAction false no click invokes the action entry
point, and a click whose target does not carry the dismiss-control class (in
particular an action-only target) invokes no dismissal entry point at all; a
click on an Element target carrying the dismiss-control class invokes the
dismiss entry point unless the action branch fired (target also carrying the
action class while dismissesOnAction is true); a click whose target carries
neither class invokes neither entry point. -/
theorem C8_amended (d : Bool) (t : ClickTarget) :
    (t.isElement = true → d = true →
      t.classes.contains "mdc-snackbar__action" = true →
      handleSurfaceClick d t = .actionButtonClick) ∧
    (d = false → handleSurfaceClick d t ≠ .actionButtonClick) ∧
    (d = false → t.classes.contains "mdc-snackbar__dismiss" = false →
      handleSurfaceClick d t = .noCall) ∧
    (t.isElement = true → t.classes.contains "mdc-snackbar__dismiss" = true →
      ¬(d = true ∧ t.classes.contains "mdc-snackbar__action" = true) →
      handleSurfaceClick d t = .actionIconClick) ∧
    (t.classes.contains "mdc-snackbar__action" = false →
      t.classes.contains "mdc-snackbar__dismiss" = false →
      handleSurfaceClick d t = .noCall) := by
  refine ⟨?_, ?_, ?_, ?_, ?_⟩ <;>
    (intros
     unfold handleSurfaceClick
     split_ifs <;> simp_all)

/-- Claim C8 (amended) at concrete inputs: with dismissesOnAction true a
click on an element classed as the action control fires the action entry
point, and with dismissesOnAction false the same action-only click fires no
entry point at all. -/
theorem C8_amended_witness :
    handleSurfaceClick true ⟨true, ["mdc-snackbar__action"]⟩ =
      .actionButtonClick ∧
    handleSurfaceClick false ⟨true, ["mdc-snackbar__action"]⟩ = .noCall :=
  ⟨(C8_amended true ⟨true, ["mdc-snackbar__action"]⟩).1 rfl rfl (by decide),
   (C8_amended false ⟨true, ["mdc-snackbar__action"]⟩).2.2.1 rfl (by decide)⟩

/-- Claim C9: applying the Snackbar deprecation mapping twice yields the same
normalized props record as applying it once. After one pass every deprecated
key has been removed, so the second pass finds nothing to translate. -/
theorem C9_deprecations_idempotent (p : SnackbarProps) :
    getPropsWithDeprecations (getPropsWithDeprecations p) =
      getPropsWithDeprecations p := by
  cases p
  simp [getPropsWithDeprecations, jsOr_none_right]

end RMWC
